import Mathlib

/-!
Formal model of an article-moderation backend: the article lifecycle
(pending / published / rejected), owner edits, admin transitions,
public listing with pagination, filtering and search, the token-based
identity service, user registration/login, and the analytics rollup.
The definitions are shallow embeddings of the JavaScript controllers
and middleware of the repository; timestamps are integer milliseconds,
document ids are natural numbers, and the persistence collaborator is
modelled as a list of documents.
-/

namespace ArticleBackend

/-- Article lifecycle status: the `status` enum of the article schema
(`pending`, `published`, `rejected`). -/
inductive Status where
  | pending
  | published
  | rejected
deriving DecidableEq, Repr

/-- An article document, carrying exactly the paths the article schema
declares: coverImage, title, shortDescription, fullDescription,
categoryTags, status, publishedDate, author and the createdAt timestamp.
In particular there is no rejectionReason path — the schema does not
declare one, so an assignment to it on a fetched document is silently
dropped by Mongoose strict mode at save.  `publishedDate` is optional at
the type level so that the schema default (`Date.now` at creation) is an
observable fact of the model rather than a typing artifact. -/
structure Article where
  id : Nat
  coverImage : String
  title : String
  shortDescription : String
  fullDescription : String
  categoryTags : List String
  status : Status
  publishedDate : Option Int
  author : Nat
  createdAt : Int
deriving DecidableEq, Repr

/-- Result of a single-article endpoint: an HTTP status code with either
the article payload (`ok`) or an error message (`err`). -/
inductive ArticleResult where
  | ok (code : Nat) (article : Article)
  | err (code : Nat) (msg : String)
deriving DecidableEq, Repr

/-- Whether the endpoint responded on its success path. -/
def ArticleResult.isOk : ArticleResult → Bool
  | .ok _ _ => true
  | .err _ _ => false

/-- The HTTP status code of a response. -/
def ArticleResult.code : ArticleResult → Nat
  | .ok c _ => c
  | .err c _ => c

/-- `.toLowerCase()` (also the mongoose `lowercase: true` transform),
written over the character list so that it evaluates by reduction. -/
def lowerString (s : String) : String := ⟨s.data.map Char.toLower⟩

/-- `Article.findById(id)`: first stored article with the given id. -/
def findById (db : List Article) (i : Nat) : Option Article :=
  db.find? (fun a => a.id == i)

/-- `article.save()` after mutating a fetched document: every stored
article with the given id is replaced by the new version. -/
def updateById (db : List Article) (i : Nat) (a : Article) : List Article :=
  db.map (fun x => if x.id == i then a else x)

/-- `approveArticle`: admin approval.  404 when the id is absent, 400
unless the current status is `pending`; on success the status becomes
`published` and `publishedDate` is set to the current time. -/
def approveArticle (db : List Article) (i : Nat) (now : Int) :
    ArticleResult × List Article :=
  match findById db i with
  | none => (.err 404 "Article not found", db)
  | some a =>
    if a.status ≠ Status.pending then
      (.err 400 "Only pending articles can be approved", db)
    else
      let a2 := { a with status := Status.published, publishedDate := some now }
      (.ok 200 a2, updateById db i a2)

/-- `rejectArticle`: admin rejection.  404 when the id is absent, 400
unless the current status is `pending`; on success the status becomes
`rejected`.  The controller also runs
`if (reason) article.rejectionReason = reason`, but that assigns a path
the article schema does not declare, so Mongoose strict mode silently
drops it at save: the persisted document changes only in its status,
whatever the reason argument. -/
def rejectArticle (db : List Article) (i : Nat) (reason : Option String) :
    ArticleResult × List Article :=
  match findById db i with
  | none => (.err 404 "Article not found", db)
  | some a =>
    if a.status ≠ Status.pending then
      (.err 400 "Only pending articles can be rejected", db)
    else
      let a2 := { a with status := Status.rejected }
      (.ok 200 a2, updateById db i a2)

/-- `unpublishArticle`: admin unpublish.  404 when the id is absent, 400
unless the current status is `published`; on success the status becomes
`rejected`.  As in `rejectArticle`, the controller's write of the
rejection reason targets a path the schema does not declare and is
dropped at save. -/
def unpublishArticle (db : List Article) (i : Nat) (reason : Option String) :
    ArticleResult × List Article :=
  match findById db i with
  | none => (.err 404 "Article not found", db)
  | some a =>
    if a.status ≠ Status.published then
      (.err 400 "Only published articles can be unpublished", db)
    else
      let a2 := { a with status := Status.rejected }
      (.ok 200 a2, updateById db i a2)

/-- `Article.findOne(\x7b _id: id, author: uid \x7d)` from the user
controller: first stored article with the given id that is owned by the
caller. -/
def findOwned (db : List Article) (i : Nat) (uid : Nat) : Option Article :=
  db.find? (fun a => a.id == i && a.author == uid)

/-- The optional replacement fields of an edit request body. -/
structure UpdateInput where
  coverImage : Option String
  title : Option String
  shortDescription : Option String
  fullDescription : Option String
  categoryTags : Option (List String)
deriving DecidableEq, Repr

/-- `if (field) article.field = field`: a string field is replaced only by
a truthy (present and non-empty) value. -/
def setStr (cur : String) (v : Option String) : String :=
  match v with
  | some s => if s = "" then cur else s
  | none => cur

/-- The field-update block of `updateArticle`: each content field is
conditionally replaced; `status`, `publishedDate`, `id`, `author` and
`createdAt` are untouched.  An explicitly supplied tag list replaces the
old one even when empty (an empty array is truthy). -/
def applyUpdates (a : Article) (inp : UpdateInput) : Article :=
  { a with
    coverImage := setStr a.coverImage inp.coverImage
    title := setStr a.title inp.title
    shortDescription := setStr a.shortDescription inp.shortDescription
    fullDescription := setStr a.fullDescription inp.fullDescription
    categoryTags :=
      match inp.categoryTags with
      | some ts => ts.map lowerString
      | none => a.categoryTags }

/-- `updateArticle`: owner edit.  404 when no stored article matches both
the id and the caller as author, 403 when the owned article is
`published`; otherwise the fields are updated and a `rejected` article is
reset to `pending` before saving. -/
def updateArticle (db : List Article) (uid : Nat) (i : Nat)
    (inp : UpdateInput) : ArticleResult × List Article :=
  match findOwned db i uid with
  | none => (.err 404 "Article not found or you do not have permission to edit it", db)
  | some a =>
    if a.status = Status.published then
      (.err 403 "Published articles cannot be edited", db)
    else
      let a1 := applyUpdates a inp
      let a2 := if a1.status = Status.rejected then { a1 with status := Status.pending } else a1
      (.ok 200 a2, updateById db i a2)

/-- The request body of article creation. -/
structure CreateInput where
  coverImage : String
  title : String
  shortDescription : String
  fullDescription : String
  categoryTags : Option (List String)
deriving DecidableEq, Repr

/-- `createArticle`: 400 when any required field is missing or empty;
otherwise a new document is inserted with status forced to `pending`,
the tag list defaulted to `[]`, and — because the controller omits the
field — `publishedDate` filled in by the schema default `Date.now`,
i.e. the creation time. -/
def createArticle (db : List Article) (uid : Nat) (inp : CreateInput)
    (newId : Nat) (now : Int) : ArticleResult × List Article :=
  if inp.coverImage = "" ∨ inp.title = "" ∨ inp.shortDescription = "" ∨
      inp.fullDescription = "" then
    (.err 400 "All required fields must be provided", db)
  else
    let a : Article :=
      { id := newId
        coverImage := inp.coverImage
        title := inp.title
        shortDescription := inp.shortDescription
        fullDescription := inp.fullDescription
        categoryTags := (inp.categoryTags.getD []).map lowerString
        status := Status.pending
        publishedDate := some now
        author := uid
        createdAt := now }
    (.ok 201 a, db ++ [a])

/-- Case-insensitive substring test on character lists: `pat` occurs
inside `hay`. -/
def containsSub (hay pat : List Char) : Bool :=
  match hay with
  | [] => pat.isEmpty
  | c :: rest => pat.isPrefixOf (c :: rest) || containsSub rest pat

/-- An unanchored case-insensitive regular-expression test
(`$regex: s, $options: "i"`) degenerates to a case-insensitive substring
match for a literal search string. -/
def containsCI (hay pat : String) : Bool :=
  containsSub (lowerString hay).data (lowerString pat).data

/-- The `$or` search clause of the public listing: the search term matches
the title, the short description, or some category tag. -/
def matchesSearch (s : String) (a : Article) : Bool :=
  containsCI a.title s || containsCI a.shortDescription s ||
    a.categoryTags.any (fun t => containsCI t s)

/-- The Mongo query built by `getAllArticles`: status `published`, the
lowercased category filter as exact tag membership when present, and the
search clause when present. -/
def matchesPublicQuery (category search : Option String) (a : Article) : Bool :=
  decide (a.status = Status.published) &&
    (match category with
     | some c => a.categoryTags.contains (lowerString c)
     | none => true) &&
    (match search with
     | some s => matchesSearch s a
     | none => true)

/-- `sort(\x7b publishedDate: -1 \x7d)`: newest published date first. -/
def publishedNoLater (a b : Article) : Prop :=
  b.publishedDate.getD 0 ≤ a.publishedDate.getD 0

instance : DecidableRel publishedNoLater := by
  intro a b
  unfold publishedNoLater
  infer_instance

/-- The response envelope of a listing endpoint. -/
structure ListResult where
  articles : List Article
  totalPages : Nat
  currentPage : Nat
  total : Nat
deriving DecidableEq, Repr

/-- `getAllArticles`: the public listing.  Filters to the public query,
sorts by published date descending, skips `(page - 1) * limit` documents
and takes `limit`; `total` is the count of matching documents and
`totalPages` is `Math.ceil(total / limit)`. -/
def getAllArticles (db : List Article) (page limit : Nat)
    (category search : Option String) : ListResult :=
  let matching := db.filter (matchesPublicQuery category search)
  let total := matching.length
  { articles := ((matching.insertionSort publishedNoLater).drop ((page - 1) * limit)).take limit
    totalPages := (total + limit - 1) / limit
    currentPage := page
    total := total }

/-- A signed token as produced by the `jsonwebtoken` collaborator.  The
signature is modelled as an injective MAC over the secret and the signed
claims: verification can compare it against the expected triple. -/
structure Token where
  id : Nat
  exp : Int
  sig : Nat × Nat × Int
deriving DecidableEq, Repr

/-- The two verification failures of the token collaborator:
`JsonWebTokenError` (malformed / bad signature) and `TokenExpiredError`. -/
inductive JwtError where
  | malformed
  | expired
deriving DecidableEq, Repr

/-- `jwt.sign(\x7b id \x7d, secret, \x7b expiresIn \x7d)`: payload id plus
an absolute expiry, signed with the secret. -/
def jwtSign (secret : Nat) (userId : Nat) (exp : Int) : Token :=
  { id := userId, exp := exp, sig := (secret, userId, exp) }

/-- `jwt.verify(token, secret)` at clock time `now`: rejects a wrong
signature as malformed, then rejects a token whose expiry has elapsed,
and otherwise returns the decoded payload id. -/
def jwtVerify (secret : Nat) (now : Int) (t : Token) : Except JwtError Nat :=
  if t.sig ≠ (secret, t.id, t.exp) then .error .malformed
  else if t.exp ≤ now then .error .expired
  else .ok t.id

/-- The default token lifetime of `generateToken` (24 hours). -/
def tokenTtl : Int := 24 * 60 * 60 * 1000

/-- `generateToken(userId)`: a token for the principal expiring `tokenTtl`
after issuance. -/
def generateToken (secret : Nat) (now : Int) (userId : Nat) : Token :=
  jwtSign secret userId (now + tokenTtl)

/-- `verifyToken(token)` from the middleware: the verification result with
both failures collapsed to `none`. -/
def verifyToken (secret : Nat) (now : Int) (t : Token) : Option Nat :=
  (jwtVerify secret now t).toOption

/-- A stored user document.  `password` is whatever string the controller
chose to store as the credential. -/
structure UserRec where
  id : Nat
  username : String
  email : String
  password : String
  createdAt : Int
deriving DecidableEq, Repr

/-- Result of an authentication endpoint. -/
inductive AuthResult where
  | ok (code : Nat) (token : Token) (userId : Nat)
  | err (code : Nat) (msg : String)
deriving DecidableEq, Repr

/-- `registerUser` from the user controller: validates presence of the
three fields, rejects a duplicate email or username with 409, and
otherwise stores the new user with the password field set to the
submitted password string as-is, returning a fresh token. -/
def registerUser (db : List UserRec) (secret : Nat) (now : Int) (newId : Nat)
    (username email password : String) : AuthResult × List UserRec :=
  if username = "" ∨ email = "" ∨ password = "" then
    (.err 400 "All fields are required", db)
  else
    match db.find? (fun u => u.email == email || u.username == username) with
    | some _ => (.err 409 "User with this email or username already exists", db)
    | none =>
      let u : UserRec := { id := newId, username := username, email := email,
                           password := password, createdAt := now }
      (.ok 201 (generateToken secret now newId) newId, db ++ [u])

/-- `loginUser` from the user controller: looks the user up by email and
accepts exactly when the submitted password string equals the stored
password field (`password !== user.password` otherwise). -/
def loginUser (db : List UserRec) (secret : Nat) (now : Int)
    (email password : String) : AuthResult :=
  if email = "" ∨ password = "" then .err 400 "Email and password are required"
  else
    match db.find? (fun u => u.email == email) with
    | none => .err 401 "Invalid credentials"
    | some u =>
      if password ≠ u.password then .err 401 "Invalid credentials"
      else .ok 200 (generateToken secret now u.id) u.id

/-- The window length in milliseconds chosen by `getAnalytics` for a
period string: 7 days for "week", 365 days for "year", 30 days for
"month" and for any other value (the default branch). -/
def periodMillis : String → Int
  | "week" => 7 * 24 * 60 * 60 * 1000
  | "month" => 30 * 24 * 60 * 60 * 1000
  | "year" => 365 * 24 * 60 * 60 * 1000
  | _ => 30 * 24 * 60 * 60 * 1000

/-- The three window counters of the analytics report. -/
structure AnalyticsStats where
  articlesInPeriod : Nat
  publishedInPeriod : Nat
  usersInPeriod : Nat
deriving DecidableEq, Repr

/-- The analytics response: the resolved window plus the counters.  The
top-author and top-category rankings are omitted from the model. -/
structure AnalyticsReport where
  period : String
  startDate : Int
  endDate : Int
  stats : AnalyticsStats
deriving DecidableEq, Repr

/-- `getAnalytics`: resolves the window `[now - period, now]` and counts
articles created in the window, articles created in the window whose
current status is `published`, and users created in the window. -/
def getAnalytics (articles : List Article) (users : List UserRec)
    (period : String) (now : Int) : AnalyticsReport :=
  let startDate := now - periodMillis period
  let endDate := now
  { period := period
    startDate := startDate
    endDate := endDate
    stats :=
      { articlesInPeriod := articles.countP
          (fun a => decide (startDate ≤ a.createdAt) && decide (a.createdAt ≤ endDate))
        publishedInPeriod := articles.countP
          (fun a => decide (startDate ≤ a.createdAt) && decide (a.createdAt ≤ endDate) &&
            decide (a.status = Status.published))
        usersInPeriod := users.countP
          (fun u => decide (startDate ≤ u.createdAt) && decide (u.createdAt ≤ endDate)) } }

/-- The published count described by the specification sentence for the
analytics report, following the spec wording rather than the source: the
number of articles whose publication date lies inside the reporting
window (status `published` and `publishedDate` within `[start, stop]`).
To be compared with the `publishedInPeriod` counter of `getAnalytics`. -/
def spec_publishedWithinWindow (articles : List Article) (start stop : Int) : Nat :=
  articles.countP (fun a =>
    decide (a.status = Status.published) &&
      (match a.publishedDate with
       | some d => decide (start ≤ d) && decide (d ≤ stop)
       | none => false))

/-- The amended reading of the analytics published counter, written as a
filter over the corpus: articles created inside the window whose current
status is `published`. -/
def spec_createdInWindowPublished (articles : List Article) (start stop : Int) : Nat :=
  ((articles.filter
      (fun a => decide (start ≤ a.createdAt) && decide (a.createdAt ≤ stop))).filter
    (fun a => decide (a.status = Status.published))).length

/-! ### Concrete fixtures -/

/-- A pending article owned by user 1. -/
def artPending : Article :=
  { id := 1, coverImage := "cover", title := "Title", shortDescription := "short",
    fullDescription := "full", categoryTags := ["tech"], status := Status.pending,
    publishedDate := some 100, author := 1, createdAt := 100 }

/-- A published article owned by user 1. -/
def artPublished : Article :=
  { artPending with id := 2, status := Status.published }

/-- A rejected article owned by user 1. -/
def artRejected : Article :=
  { artPending with id := 3, status := Status.rejected }

/-- A three-article corpus, one article per status. -/
def dbSmall : List Article := [artPending, artPublished, artRejected]

/-- An edit request body that supplies no replacement field. -/
def noUpdates : UpdateInput :=
  { coverImage := none, title := none, shortDescription := none,
    fullDescription := none, categoryTags := none }

/-- An edit request body that only replaces the title. -/
def titleUpdate : UpdateInput :=
  { coverImage := none, title := some "New title", shortDescription := none,
    fullDescription := none, categoryTags := none }

/-- Twenty-five published articles. -/
def dbTwentyFive : List Article :=
  (List.range 25).map (fun n => { artPublished with id := n, publishedDate := some (n : Int) })

/-! ### Helper lemmas -/

/-- The field-update block never changes the status field. -/
theorem applyUpdates_status (a : Article) (inp : UpdateInput) :
    (applyUpdates a inp).status = a.status := rfl

/-- After replacing the article found by id, an ownership lookup with the
replacement's author finds the replacement, provided the replacement kept
the id. -/
theorem findOwned_updateById_of_findById
    (db : List Article) (i : Nat) (a a2 : Article)
    (ha : findById db i = some a) (hid : a2.id = a.id) :
    findOwned (updateById db i a2) i a2.author = some a2 := by
  induction db with
  | nil => simp [findById] at ha
  | cons x t ih =>
    unfold findById at ha
    unfold findOwned updateById
    rw [List.map_cons]
    by_cases hx : (x.id == i) = true
    · rw [List.find?_cons] at ha
      simp only [hx] at ha
      obtain rfl : x = a := Option.some_inj.mp ha
      rw [if_pos hx, List.find?_cons]
      have hpred : (a2.id == i && a2.author == a2.author) = true := by
        have hai : x.id = i := by simpa using hx
        simp [hid, hai]
      simp only [hpred]
    · have hxf : (x.id == i) = false := by simpa using hx
      rw [List.find?_cons] at ha
      simp only [hxf] at ha
      rw [if_neg hx, List.find?_cons]
      have hpredf : (x.id == i && x.author == a2.author) = false := by
        simp [hxf]
      simp only [hpredf]
      exact ih ha

/-! ### Claim theorems -/

/-- C1: admin transitions respect the lifecycle graph.  For a stored
article, approve succeeds exactly when its status is `pending`, reject
succeeds exactly when it is `pending`, and unpublish succeeds exactly
when it is `published`; invoking any of them in any other status returns
the invalid-transition failure (HTTP 400) and leaves the store
unchanged. -/
theorem admin_transitions_respect_lifecycle
    (db : List Article) (i : Nat) (now : Int) (reason : Option String)
    (a : Article) (ha : findById db i = some a) :
    ((approveArticle db i now).1.isOk = true ↔ a.status = Status.pending) ∧
    ((rejectArticle db i reason).1.isOk = true ↔ a.status = Status.pending) ∧
    ((unpublishArticle db i reason).1.isOk = true ↔ a.status = Status.published) ∧
    (a.status ≠ Status.pending →
      approveArticle db i now =
        (.err 400 "Only pending articles can be approved", db) ∧
      rejectArticle db i reason =
        (.err 400 "Only pending articles can be rejected", db)) ∧
    (a.status ≠ Status.published →
      unpublishArticle db i reason =
        (.err 400 "Only published articles can be unpublished", db)) := by
  unfold approveArticle rejectArticle unpublishArticle
  rw [ha]
  by_cases hp : a.status = Status.pending
  · have hnp : a.status ≠ Status.published := by rw [hp]; intro h; cases h
    simp [hp, hnp, ArticleResult.isOk]
  · by_cases hq : a.status = Status.published
    · simp [hp, hq, ArticleResult.isOk]
    · simp [hp, hq, ArticleResult.isOk]

/-- Witness for C1 at a concrete store: approving the stored pending
article succeeds, and unpublishing it is the invalid-transition
failure. -/
theorem admin_transitions_respect_lifecycle_witness :
    (approveArticle dbSmall 1 200).1.isOk = true ∧
    unpublishArticle dbSmall 1 none =
      (.err 400 "Only published articles can be unpublished", dbSmall) :=
  ⟨(admin_transitions_respect_lifecycle dbSmall 1 200 none artPending rfl).1.mpr rfl,
   (admin_transitions_respect_lifecycle dbSmall 1 200 none artPending rfl).2.2.2.2
     (by decide)⟩

/-- C2 counterexample: a caller who is not the owner of a stored,
non-published article gets the not-found failure (HTTP 404) from the
edit endpoint, not the forbidden failure (HTTP 403) the claim
prescribes for the non-owner case. -/
theorem update_nonowner_counterexample :
    artPending.author ≠ 2 ∧
    artPending.status ≠ Status.published ∧
    findById dbSmall 1 = some artPending ∧
    (updateArticle dbSmall 2 1 noUpdates).1.code = 404 ∧
    ¬((updateArticle dbSmall 2 1 noUpdates).1.code = 403) := by
  decide

/-- C2 amended: the edit endpoint fails with the forbidden failure
(HTTP 403) in exactly one case — the caller owns the article and its
status is `published`; when no stored article matches both the id and
the caller as owner it fails with the not-found failure (HTTP 404); in
both failure cases the store is unchanged. -/
theorem update_forbidden_iff_owned_published
    (db : List Article) (uid i : Nat) (inp : UpdateInput) :
    ((updateArticle db uid i inp).1.code = 403 ↔
      ∃ a, findOwned db i uid = some a ∧ a.status = Status.published) ∧
    (findOwned db i uid = none →
      updateArticle db uid i inp =
        (.err 404 "Article not found or you do not have permission to edit it", db)) ∧
    (∀ a, findOwned db i uid = some a → a.status = Status.published →
      updateArticle db uid i inp =
        (.err 403 "Published articles cannot be edited", db)) := by
  rcases h : findOwned db i uid with _ | a
  · simp [updateArticle, h, ArticleResult.code]
  · by_cases hs : a.status = Status.published
    · simp [updateArticle, h, hs, ArticleResult.code]
    · simp [updateArticle, h, hs, ArticleResult.code]

/-- Witness for the amended C2: editing the stored published article as
its owner is rejected with HTTP 403 and the store is unchanged. -/
theorem update_forbidden_iff_owned_published_witness :
    updateArticle dbSmall 1 2 noUpdates =
      (.err 403 "Published articles cannot be edited", dbSmall) :=
  (update_forbidden_iff_owned_published dbSmall 1 2 noUpdates).2.2 artPublished
    (by decide) rfl

/-- C3: a successful owner edit of a `rejected` article always leaves the
article `pending` afterward. -/
theorem edit_rejected_resets_to_pending
    (db : List Article) (uid i : Nat) (inp : UpdateInput) (a : Article)
    (ha : findOwned db i uid = some a) (hr : a.status = Status.rejected) :
    ∃ a2, updateArticle db uid i inp = (.ok 200 a2, updateById db i a2) ∧
      a2.status = Status.pending := by
  have hnp : a.status ≠ Status.published := by rw [hr]; intro h; cases h
  refine ⟨{ applyUpdates a inp with status := Status.pending }, ?_, rfl⟩
  have h1 : (applyUpdates a inp).status = Status.rejected := by
    rw [applyUpdates_status, hr]
  simp [updateArticle, ha, hnp, h1]

/-- Witness for C3: editing the stored rejected article as its owner
succeeds and the saved article is `pending`. -/
theorem edit_rejected_resets_to_pending_witness :
    ∃ a2, updateArticle dbSmall 1 3 noUpdates =
        (.ok 200 a2, updateById dbSmall 3 a2) ∧
      a2.status = Status.pending :=
  edit_rejected_resets_to_pending dbSmall 1 3 noUpdates artRejected (by decide) rfl

/-- C4: for every page, limit, category filter and search term, every
article in the public listing result has status `published`. -/
theorem public_listing_only_published
    (db : List Article) (page limit : Nat) (category search : Option String)
    (a : Article)
    (ha : a ∈ (getAllArticles db page limit category search).articles) :
    a.status = Status.published := by
  simp only [getAllArticles] at ha
  have h1 : a ∈ (db.filter (matchesPublicQuery category search)).insertionSort
      publishedNoLater :=
    List.mem_of_mem_drop (List.mem_of_mem_take ha)
  rw [List.mem_insertionSort] at h1
  have h2 := (List.mem_filter.mp h1).2
  have h3 := ((Bool.and_eq_true _ _).mp ((Bool.and_eq_true _ _).mp h2).1).1
  exact of_decide_eq_true h3

/-- Witness for C4: the one article the public listing of the mixed
corpus returns is the published one. -/
theorem public_listing_only_published_witness :
    artPublished.status = Status.published :=
  public_listing_only_published dbSmall 1 10 none none artPublished (by decide)

/-- C6: token round-trip.  A token issued for a principal verifies to
exactly that principal id at any clock before its expiry, and verifying
it once its lifetime has elapsed yields the expired failure (collapsed
to `none` by the middleware wrapper). -/
theorem token_round_trip (secret userId : Nat) (issuedAt t : Int) :
    (t < issuedAt + tokenTtl →
      jwtVerify secret t (generateToken secret issuedAt userId) = .ok userId ∧
      verifyToken secret t (generateToken secret issuedAt userId) = some userId) ∧
    (issuedAt + tokenTtl ≤ t →
      jwtVerify secret t (generateToken secret issuedAt userId) = .error .expired ∧
      verifyToken secret t (generateToken secret issuedAt userId) = none) := by
  constructor
  · intro h
    have hexp : ¬(issuedAt + tokenTtl ≤ t) := not_le.mpr h
    simp [generateToken, jwtSign, jwtVerify, verifyToken, Except.toOption, hexp]
  · intro h
    simp [generateToken, jwtSign, jwtVerify, verifyToken, Except.toOption, h]

/-- Witness for C6: a token issued at time 0 for principal 42 verifies to
42 just before its expiry and is expired exactly at its expiry. -/
theorem token_round_trip_witness :
    jwtVerify 7 86399999 (generateToken 7 0 42) = .ok 42 ∧
    jwtVerify 7 86400000 (generateToken 7 0 42) = .error .expired :=
  ⟨((token_round_trip 7 42 0 86399999).1 (by decide)).1,
   ((token_round_trip 7 42 0 86400000).2 (by decide)).1⟩

/-- C7: the pagination contract of the public listing.  `totalPages` is
the ceiling division of the matching total by the limit (stated both as
Mathlib ceiling division and through its defining bounds), `currentPage`
echoes the requested page, and a page whose offset is at or beyond the
total yields an empty result set rather than an error. -/
theorem pagination_contract
    (db : List Article) (page limit : Nat) (category search : Option String)
    (hl : 0 < limit) :
    (getAllArticles db page limit category search).totalPages =
      (getAllArticles db page limit category search).total ⌈/⌉ limit ∧
    (getAllArticles db page limit category search).currentPage = page ∧
    (getAllArticles db page limit category search).total ≤
      limit * (getAllArticles db page limit category search).totalPages ∧
    (∀ k, (getAllArticles db page limit category search).total ≤ limit * k →
      (getAllArticles db page limit category search).totalPages ≤ k) ∧
    ((getAllArticles db page limit category search).total ≤ (page - 1) * limit →
      (getAllArticles db page limit category search).articles = []) := by
  refine ⟨rfl, rfl, ?_, ?_, ?_⟩
  · have h := le_smul_ceilDiv
      (a := limit) (b := (getAllArticles db page limit category search).total) hl
    simpa [smul_eq_mul, Nat.ceilDiv_eq_add_pred_div] using h
  · intro k hk
    have h := (ceilDiv_le_iff_le_smul
      (a := limit) (b := (getAllArticles db page limit category search).total)
      (c := k) hl).mpr (by simpa [smul_eq_mul] using hk)
    simpa [Nat.ceilDiv_eq_add_pred_div] using h
  · intro h
    simp only [getAllArticles] at h ⊢
    have hlen : ((db.filter (matchesPublicQuery category search)).insertionSort
        publishedNoLater).length ≤ (page - 1) * limit := by
      rw [List.length_insertionSort]
      exact h
    rw [List.drop_eq_nil_of_le hlen, List.take_nil]

/-- Witness for C7: 25 published articles with limit 10 give 3 total
pages, and page 4 returns an empty result set. -/
theorem pagination_contract_witness :
    (getAllArticles dbTwentyFive 4 10 none none).articles = [] ∧
    (getAllArticles dbTwentyFive 4 10 none none).totalPages = 3 :=
  ⟨(pagination_contract dbTwentyFive 4 10 none none (by decide)).2.2.2.2 (by decide),
   by decide⟩

/-- C5: evaluation of the defect.  User registration stores the submitted
secret verbatim as the credential (no digest), and login accepts exactly
the plaintext string equality — the hashing collaborator is never
involved on the user side. -/
theorem plaintext_credential_storage :
    ((registerUser [] 7 0 1 "alice" "alice@example.com" "secret123").2.map
      (fun u => u.password) = ["secret123"]) ∧
    loginUser (registerUser [] 7 0 1 "alice" "alice@example.com" "secret123").2 7 5
      "alice@example.com" "secret123" = .ok 200 (generateToken 7 5 1) 1 ∧
    loginUser (registerUser [] 7 0 1 "alice" "alice@example.com" "secret123").2 7 5
      "alice@example.com" "wrong" = .err 401 "Invalid credentials" := by
  decide

/-- C8: evaluation of the defect.  The article schema declares no
rejectionReason path, so Mongoose strict mode silently drops the
controller's `article.rejectionReason = reason` write at save: rejecting
the stored pending article with reason "low quality" is
indistinguishable from rejecting it with no reason and persists exactly
the status change; the owner's subsequent title edit then saves the
article reset to `pending`, with no stored reason anywhere for it to
preserve. -/
theorem rejection_reason_never_stored :
    rejectArticle dbSmall 1 (some "low quality") = rejectArticle dbSmall 1 none ∧
    rejectArticle dbSmall 1 (some "low quality") =
      (.ok 200 { artPending with status := Status.rejected },
        updateById dbSmall 1 { artPending with status := Status.rejected }) ∧
    updateArticle (updateById dbSmall 1 { artPending with status := Status.rejected })
        1 1 titleUpdate =
      (.ok 200 { artPending with title := "New title" },
        updateById (updateById dbSmall 1 { artPending with status := Status.rejected })
          1 { artPending with title := "New title" }) := by
  decide

/-- An article created before the reporting window but published inside
it. -/
def artPublishedLate : Article :=
  { artPending with
    id := 9
    status := Status.published
    createdAt := 0
    publishedDate := some 700000000 }

/-- C9 counterexample: over a corpus holding one article created before
the one-week window but published (with `publishedDate`) inside it, the
analytics published counter reports 0 while the number of articles
published within the window is 1 — the code counts creations in the
window that are currently published, not publications in the window. -/
theorem analytics_published_count_counterexample :
    (getAnalytics [artPublishedLate] [] "week" 1209600000).stats.publishedInPeriod = 0 ∧
    spec_publishedWithinWindow [artPublishedLate]
      (1209600000 - periodMillis "week") 1209600000 = 1 := by
  decide

/-- C9 amended: for every period (7 days for week, 365 for year, 30 for
month and for any other value) the analytics window is
`[now - period, now]` and the report's published count equals the number
of articles created within the window whose current status is
`published`. -/
theorem analytics_published_counts_created_in_window
    (articles : List Article) (users : List UserRec) (period : String) (now : Int) :
    (getAnalytics articles users period now).stats.publishedInPeriod =
      spec_createdInWindowPublished articles (now - periodMillis period) now ∧
    (getAnalytics articles users period now).startDate = now - periodMillis period ∧
    (getAnalytics articles users period now).endDate = now ∧
    (period ≠ "week" → period ≠ "year" →
      periodMillis period = 30 * 24 * 60 * 60 * 1000) := by
  refine ⟨?_, rfl, rfl, ?_⟩
  · simp only [getAnalytics, spec_createdInWindowPublished,
      List.countP_eq_length_filter, List.filter_filter]
    congr 1
    congr 1
    funext a
    exact Bool.and_comm _ _
  · intro hw hy
    unfold periodMillis
    split <;> simp_all

/-- Witness for the amended C9: on the mixed corpus with a one-week
window ending at time 200, the published counter equals the
created-in-window published count, and an unknown period string falls
back to the 30-day window. -/
theorem analytics_published_counts_created_in_window_witness :
    (getAnalytics dbSmall [] "week" 200).stats.publishedInPeriod =
      spec_createdInWindowPublished dbSmall (200 - periodMillis "week") 200 ∧
    periodMillis "quarter" = 30 * 24 * 60 * 60 * 1000 :=
  ⟨(analytics_published_counts_created_in_window dbSmall [] "week" 200).1,
   (analytics_published_counts_created_in_window dbSmall [] "quarter" 200).2.2.2
     (by decide) (by decide)⟩

/-- C10: every article carries a populated `publishedDate` from the
moment it is created: successful creation stores `publishedDate` equal
to the creation time (the schema default) while the status is forced to
`pending`, and an admin rejection leaves the field untouched, so pending
and rejected articles expose a `publishedDate` value as well. -/
theorem created_article_carries_publishedDate
    (db : List Article) (uid : Nat) (inp : CreateInput) (newId : Nat) (now : Int)
    (hc : inp.coverImage ≠ "") (ht : inp.title ≠ "") (hs : inp.shortDescription ≠ "")
    (hf : inp.fullDescription ≠ "") :
    (∃ a, createArticle db uid inp newId now = (.ok 201 a, db ++ [a]) ∧
      a.status = Status.pending ∧ a.publishedDate = some now ∧
      a.publishedDate ≠ none) ∧
    (∀ (db2 : List Article) (i : Nat) (reason : Option String) (b : Article),
      findById db2 i = some b → b.status = Status.pending →
      ∃ b1, rejectArticle db2 i reason = (.ok 200 b1, updateById db2 i b1) ∧
        b1.publishedDate = b.publishedDate) := by
  constructor
  · refine ⟨{ id := newId, coverImage := inp.coverImage, title := inp.title, shortDescription := inp.shortDescription, fullDescription := inp.fullDescription, categoryTags := (inp.categoryTags.getD []).map lowerString, status := Status.pending, publishedDate := some now, author := uid, createdAt := now }, ?_, rfl, rfl, by simp⟩
    simp [createArticle, hc, ht, hs, hf]
  · intro db2 i reason b hb hbp
    refine ⟨{ b with status := Status.rejected }, ?_, rfl⟩
    simp only [rejectArticle, hb]
    rw [if_neg (fun h => h hbp)]

/-- Witness for C10: creating an article with concrete non-empty fields
at time 500 stores `publishedDate = some 500` and status `pending`, and
rejecting the stored pending article keeps its `publishedDate`. -/
theorem created_article_carries_publishedDate_witness :
    (∃ a, createArticle [] 1
        { coverImage := "img", title := "t", shortDescription := "s",
          fullDescription := "f", categoryTags := none } 10 500 =
        (.ok 201 a, [] ++ [a]) ∧
      a.status = Status.pending ∧ a.publishedDate = some 500 ∧
      a.publishedDate ≠ none) ∧
    (∃ b1, rejectArticle dbSmall 1 none = (.ok 200 b1, updateById dbSmall 1 b1) ∧
      b1.publishedDate = artPending.publishedDate) :=
  ⟨(created_article_carries_publishedDate [] 1
      { coverImage := "img", title := "t", shortDescription := "s",
        fullDescription := "f", categoryTags := none } 10 500
      (by decide) (by decide) (by decide) (by decide)).1,
   (created_article_carries_publishedDate [] 1
      { coverImage := "img", title := "t", shortDescription := "s",
        fullDescription := "f", categoryTags := none } 10 500
      (by decide) (by decide) (by decide) (by decide)).2
     dbSmall 1 none artPending rfl rfl⟩

end ArticleBackend
